import Mathlib

/-!
Verification development for the GENESIS video-generation pipeline
(`src/motion-specs/generate_video.py`).

The Python program is shallowly embedded: pure functions become Lean
functions, Python exceptions become `Except PyErr`, Python `dict`s become
association lists with first-match lookup, machine floats that only carry
exact decimal constants (durations, offsets) are modelled as `ℚ`, and the
filesystem / network side effects are abstracted into explicit arguments
(a call-outcome oracle, an elapsed-time argument) and an event trace.
-/

/-- Python values as they appear in the dynamically-typed parts of the
program (payload entries, metadata, frame descriptors). -/
inductive PyVal where
  | none
  | str (s : String)
  | int (n : Int)
  | rat (q : ℚ)
  | list (xs : List PyVal)

/-- The Python exceptions the embedded code can raise.
`str(e)` for a `KeyError` is the quoted key, matching CPython. -/
inductive PyErr where
  | keyError (key : String)
  | indexError (msg : String)
  | valueError (msg : String)
  | httpStatusError (msg : String)
  | transportError (msg : String)
  deriving DecidableEq, Repr

/-- `str(e)` for each modelled exception, as used for `error_message`. -/
def strOfPyErr : PyErr → String
  | .keyError k => "'" ++ k ++ "'"
  | .indexError m => m
  | .valueError m => m
  | .httpStatusError m => m
  | .transportError m => m

/-- Python `d.get(k, dflt)` on a dict modelled as an association list. -/
def pyGetD (d : List (String × α)) (k : String) (dflt : α) : α :=
  match d.find? (fun p => p.1 == k) with
  | some p => p.2
  | Option.none => dflt

/-- Python `d[k]` on a dict: raises `KeyError(k)` when absent. -/
def pyGetKey (d : List (String × α)) (k : String) : Except PyErr α :=
  match d.find? (fun p => p.1 == k) with
  | some p => .ok p.2
  | Option.none => .error (.keyError k)

/-- Python `s[i]` on a string: raises `IndexError` out of range. -/
def pyCharAt (s : String) (i : Nat) : Except PyErr Char :=
  match s.data.get? i with
  | some c => .ok c
  | Option.none => .error (.indexError "string index out of range")

/-- Python `int(c)` on a one-character string: the digit value, or
`ValueError` when the character is not a decimal digit. -/
def pyCharToInt (c : Char) : Except PyErr Int :=
  if c.isDigit then .ok ((c.toNat : Int) - 48)
  else .error (.valueError ("invalid literal for int: " ++ String.mk [c]))

/-- Python `"txt" * n` for a `Nat` count. -/
def strRepeat (s : String) : Nat → String
  | 0 => ""
  | n + 1 => s ++ strRepeat s n

/-- Python `"txt" * n` for an `Int` count (negative counts give `""`). -/
def strRepeatInt (s : String) (n : Int) : String :=
  strRepeat s n.toNat

/-- Python `f"{s:>w}"`: right-justify a string to width `w`. -/
def rjust (w : Nat) (s : String) : String :=
  strRepeat " " (w - s.data.length) ++ s

/-- Character-level lowering, modelling Python `str.lower` on ASCII. -/
def charsLower : List Char → List Char
  | [] => []
  | c :: cs => c.toLower :: charsLower cs

/-- Python `s.replace(' ', '_')` at character level. -/
def charsUnderscore : List Char → List Char
  | [] => []
  | c :: cs => (if c = ' ' then '_' else c) :: charsUnderscore cs

/-- Python `s.split(sep)` for a one-character separator: always returns a
non-empty list of groups. -/
def splitChar (sep : Char) : List Char → List (List Char)
  | [] => [[]]
  | c :: cs =>
    match splitChar sep cs with
    | [] => [[]]
    | g :: gs => if c = sep then [] :: g :: gs else (c :: g) :: gs

/-- Sequencing a Python `for` loop that may raise: stop at the first
error, otherwise collect the results in order. -/
def mapE (f : α → Except PyErr β) : List α → Except PyErr (List β)
  | [] => .ok []
  | a :: as => do
    let b ← f a
    let bs ← mapE f as
    pure (b :: bs)

/-- Insertion into an ascending list of strings (for `sorted`). -/
def insertStr (a : String) : List String → List String
  | [] => [a]
  | b :: bs => if a ≤ b then a :: b :: bs else b :: insertStr a bs

/-- Ascending insertion sort on strings. -/
def sortStr : List String → List String
  | [] => []
  | a :: as => insertStr a (sortStr as)

/-- Distinct elements, first occurrence kept. -/
def dedupStr : List String → List String
  | [] => []
  | a :: as => if as.contains a then dedupStr as else a :: dedupStr as

/-- Python `sorted(set(l))`: the distinct elements in ascending order. -/
def pySortedSet (l : List String) : List String :=
  sortStr (dedupStr l)

/-- `Config` (generate_video.py lines 51-76): the global configuration
dataclass, with the exact field defaults. Paths are modelled as strings;
the float-valued fields carry exact decimal constants, modelled in `ℚ`. -/
structure Config where
  api_endpoint : String := "https://api.veo.google.com/v1"
  api_key : String := ""
  output_dir : String := "output"
  temp_dir : String := "temp"
  resolution : Nat × Nat := (1920, 1080)
  fps : Nat := 60
  segment_duration : Int := 8
  quality : String := "high"
  format : String := "mp4"
  codec : String := "h264"
  guidance_scale : ℚ := 15 / 2
  num_inference_steps : Nat := 50
  seed : Option Int := Option.none
  max_retries : Nat := 3
  retry_delay : ℚ := 5

/-- `Segment` (lines 83-104): one video segment. `key_moments` entries are
string-valued dicts (`{time, action}` pairs); the frame descriptors and
continuity map are carried opaquely as `PyVal` dicts. -/
structure Segment where
  id : String
  name : String
  duration_seconds : Int
  prompt : String
  negative_prompt : String
  entry_frame : List (String × PyVal)
  exit_frame : List (String × PyVal)
  key_moments : List (List (String × String))
  audio_description : String
  motion_keywords : List String
  continuity_requirements : List (String × PyVal)

/-- `Segment.output_filename` (lines 98-100):
`f"{self.id}_{self.name.lower().replace(' ', '_')}.mp4"`. -/
def outputFilename (seg : Segment) : String :=
  seg.id ++ "_" ++ String.mk (charsUnderscore (charsLower seg.name.data)) ++ ".mp4"

/-- `GenerationResult` (lines 107-115), with the dataclass defaults. -/
structure GenerationResult where
  segment_id : String
  success : Bool
  output_path : Option String := Option.none
  generation_time : ℚ := 0
  error_message : Option String := Option.none
  metadata : List (String × PyVal) := []

/-- The global context: a read-only dict of style strings
(`prompt_chain["global_context"]`). -/
def GlobalContext : Type := List (String × String)

/-- `VideoConcatenator._generate_ffmpeg_command`, filter-graph loop
(lines 365-376), kept structurally: for boundary `i` of `n` inputs, the
previous stream label, the joining input index, the crossfade offset
(`7.8` hard-coded at `i = 0`, else `7.8 + i * 7.8`), and the output
stream label. `f"{k:02d}"` is `pad2`. -/
def pad2 (k : Nat) : String :=
  if k < 10 then "0" ++ toString k else toString k

/-- Stream label `f"v{a:02d}{b:02d}"`. -/
def vLabel (a b : Nat) : String :=
  "v" ++ pad2 a ++ pad2 b

/-- One crossfade stage of the emitted filter graph. -/
structure XfadePart where
  prevLabel : String
  inputIndex : Nat
  offset : ℚ
  outLabel : String
  deriving DecidableEq, Repr

/-- The filter-graph stages for `n` ordered segment paths
(lines 367-376). -/
def ffmpegFilterParts (n : Nat) : List XfadePart :=
  (List.range (n - 1)).map (fun i =>
    if i = 0 then
      { prevLabel := "0:v", inputIndex := 1, offset := 39 / 5, outLabel := "v01" }
    else
      { prevLabel := if i > 1 then vLabel (i - 1) i else "v01",
        inputIndex := i + 1,
        offset := 39 / 5 + (i : ℚ) * (39 / 5),
        outLabel := vLabel i (i + 1) })

/-- The crossfade offsets the emitted encode command assigns to
boundaries `0 .. n-2`, in order. -/
def xfadeOffsets (n : Nat) : List ℚ :=
  (ffmpegFilterParts n).map (fun p => p.offset)

/-- One prompt-chain entry (`prompt_data` in `SpecLoader.get_segments`,
lines 158-171), modelled as a record of optional fields: `some v` when the
JSON key is present with (well-typed) value `v`, `none` when absent. -/
structure PromptEntry where
  segment_id : Option String := Option.none
  segment_name : Option String := Option.none
  duration_seconds : Option Int := Option.none
  prompt : Option String := Option.none
  negative_prompt : Option String := Option.none
  entry_frame : Option (List (String × PyVal)) := Option.none
  exit_frame : Option (List (String × PyVal)) := Option.none
  key_moments : Option (List (List (String × String))) := Option.none
  audio_description : Option String := Option.none
  motion_keywords : Option (List String) := Option.none
  continuity_requirements : Option (List (String × PyVal)) := Option.none

/-- Python `prompt_data["k"]`: `KeyError(k)` when the key is absent. -/
def requireKey (o : Option α) (k : String) : Except PyErr α :=
  match o with
  | some v => .ok v
  | Option.none => .error (.keyError k)

/-- Construction of one `Segment` from one prompt-chain entry
(`SpecLoader.get_segments`, lines 159-171). The required lookups are
evaluated in the source order `segment_id`, `segment_name`,
`duration_seconds`, `prompt`; the remaining fields use `.get` with the
source defaults. -/
def segmentOfEntry (e : PromptEntry) : Except PyErr Segment := do
  let id ← requireKey e.segment_id "segment_id"
  let name ← requireKey e.segment_name "segment_name"
  let dur ← requireKey e.duration_seconds "duration_seconds"
  let p ← requireKey e.prompt "prompt"
  pure
    { id := id, name := name, duration_seconds := dur, prompt := p,
      negative_prompt := e.negative_prompt.getD "",
      entry_frame := e.entry_frame.getD [],
      exit_frame := e.exit_frame.getD [],
      key_moments := e.key_moments.getD [],
      audio_description := e.audio_description.getD "",
      motion_keywords := e.motion_keywords.getD [],
      continuity_requirements := e.continuity_requirements.getD [] }

/-- `SpecLoader.get_segments` (lines 154-174): map every entry of
`prompt_chain["prompts"]`, in order, to a `Segment`; the first exception
aborts the whole call. -/
def getSegments (promptChain : List PromptEntry) : Except PyErr (List Segment) :=
  mapE segmentOfEntry promptChain

/-- `VideoGenerator._build_enhanced_prompt` (lines 239-249): the f-string
template, six `global_context.get(key, '')` substitutions in source
order, a blank separator line, then the raw segment prompt. -/
def buildEnhancedPrompt (seg : Segment) (ctx : GlobalContext) : String :=
  "Style: " ++ pyGetD ctx "style" "" ++ "\n" ++
  "Color Palette: " ++ pyGetD ctx "color_palette" "" ++ "\n" ++
  "Device: " ++ pyGetD ctx "device" "" ++ "\n" ++
  "Lighting: " ++ pyGetD ctx "lighting" "" ++ "\n" ++
  "Camera: " ++ pyGetD ctx "camera" "" ++ "\n" ++
  "Quality: " ++ pyGetD ctx "quality" "" ++ "\n" ++
  "\n" ++ seg.prompt

/-- The Global Context fields in the fixed order stated by the spec
(§4.2 step 1), with their rendered labels. -/
def specContextFields : List (String × String) :=
  [("Style: ", "style"), ("Color Palette: ", "color_palette"),
   ("Device: ", "device"), ("Lighting: ", "lighting"),
   ("Camera: ", "camera"), ("Quality: ", "quality")]

/-- Modelled from the spec (§4.2 step 1): the enhanced prompt is a block
rendering the Global Context fields in the fixed order `style,
color_palette, device, lighting, camera, quality`, each on its own line,
absent keys rendered as empty strings, followed by the segment's raw
prompt (after the block's blank separator line). -/
def specEnhancedPrompt (seg : Segment) (ctx : GlobalContext) : String :=
  String.join (specContextFields.map
    (fun f => f.1 ++ pyGetD ctx f.2 "" ++ "\n")) ++ "\n" ++ seg.prompt

/-- Python truthiness of `Optional[int]`: `None` and `0` are falsy. -/
def pyTruthyIntOpt : Option Int → Bool
  | Option.none => false
  | some n => n != 0

/-- The request payload assembled by `VideoGenerator._call_api`
(lines 253-264): seven base entries, plus `seed` when
`self.config.seed` is truthy. -/
def buildPayload (cfg : Config) (seg : Segment) (p : String) : List (String × PyVal) :=
  let base : List (String × PyVal) :=
    [("prompt", .str p),
     ("negative_prompt", .str seg.negative_prompt),
     ("duration", .int seg.duration_seconds),
     ("resolution", .str (toString cfg.resolution.1 ++ "x" ++ toString cfg.resolution.2)),
     ("fps", .int (cfg.fps : Int)),
     ("guidance_scale", .rat cfg.guidance_scale),
     ("num_inference_steps", .int (cfg.num_inference_steps : Int))]
  if pyTruthyIntOpt cfg.seed then
    base ++ [("seed", .int (cfg.seed.getD 0))]
  else
    base

/-- The outcome of one attempt of the retry loop in
`VideoGenerator._call_api` (lines 266-280): a successful 2xx response
with a JSON body, a non-2xx response (`httpx.HTTPStatusError`, raised by
`raise_for_status`), or a transport-level error (an `httpx` error that is
NOT an `HTTPStatusError`). -/
inductive AttemptOutcome where
  | ok (resp : PyVal)
  | httpStatusError (msg : String)
  | transportError (msg : String)

/-- Observable trace of one `_call_api` invocation: how many attempts
were made, how many `asyncio.sleep(retry_delay)` pauses happened, and
the returned value or the escaped exception. -/
structure CallTrace where
  attemptsMade : Nat
  sleeps : Nat
  outcome : Except PyErr PyVal

/-- The retry loop of `_call_api` from a given attempt index with a given
number of remaining iterations (`for attempt in range(max_retries)`):
a success returns immediately; an `HTTPStatusError` sleeps and retries
unless this is the final iteration, where it is re-raised; any other
exception (a transport error) is not caught and escapes at once. If the
loop runs zero iterations the function falls through and returns `None`. -/
def callApiAux (outcomes : Nat → AttemptOutcome) (attempt : Nat) :
    Nat → CallTrace
  | 0 => { attemptsMade := 0, sleeps := 0, outcome := .ok .none }
  | r + 1 =>
    match outcomes attempt with
    | .ok resp => { attemptsMade := 1, sleeps := 0, outcome := .ok resp }
    | .httpStatusError m =>
      if r = 0 then
        { attemptsMade := 1, sleeps := 0, outcome := .error (.httpStatusError m) }
      else
        let t := callApiAux outcomes (attempt + 1) r
        { attemptsMade := t.attemptsMade + 1, sleeps := t.sleeps + 1,
          outcome := t.outcome }
    | .transportError m =>
      { attemptsMade := 1, sleeps := 0, outcome := .error (.transportError m) }

/-- `VideoGenerator._call_api` (lines 266-280), abstracted over the
per-attempt outcomes of the service. -/
def callApi (outcomes : Nat → AttemptOutcome) (maxRetries : Nat) : CallTrace :=
  callApiAux outcomes 0 maxRetries

/-- `VideoGenerator.generate_segment` (lines 198-237). `hash` stands for
the MD5 short-digest primitive behind `Segment.prompt_hash`;
`callOutcome` is the outcome of the dispatched `_call_api` /
`_simulate_generation` call (the body of the `try`); `elapsed` is
`time.time() - start_time`. The enhanced prompt is built before the
`try` block, as in the source, and is total. -/
def generateSegment (hash : String → String) (cfg : Config) (seg : Segment)
    (ctx : GlobalContext) (callOutcome : Except PyErr PyVal)
    (elapsed : ℚ) : GenerationResult :=
  let enhanced := buildEnhancedPrompt seg ctx
  match callOutcome with
  | .ok _ =>
    { segment_id := seg.id, success := true,
      output_path := some (cfg.output_dir ++ "/" ++ outputFilename seg),
      generation_time := elapsed,
      error_message := Option.none,
      metadata :=
        [("prompt_hash", .str (hash seg.prompt)),
         ("enhanced_prompt_length", .int (enhanced.data.length : Int)),
         ("motion_keywords", .list (seg.motion_keywords.map .str))] }
  | .error e =>
    { segment_id := seg.id, success := false,
      output_path := Option.none,
      generation_time := elapsed,
      error_message := some (strOfPyErr e),
      metadata := [] }

/-- The time ruler of `TimelineVisualizer.generate` (lines 415-418):
`"Time:  "` then, for `i in range(0, 57, 8)`, `f"{i:>3}s"` and five
spaces. -/
def rulerLine : String :=
  "Time:  " ++ String.join ((List.range 8).map
    (fun k => rjust 3 (toString (k * 8)) ++ "s" ++ strRepeat " " 5))

/-- The per-segment bar block of `TimelineVisualizer.generate`
(lines 426-437). `start_sec` is computed (and discarded) exactly as in
the source, because its evaluation can raise; then
`seg_num = int(seg.id[1]) - 1` positions the bar, a negative repeat
count yielding the empty padding as in Python. -/
def segBarLines (seg : Segment) : Except PyErr (List String) := do
  let c0 ← pyCharAt seg.id 0
  let _startSec ←
    if c0 = 'S' then do
      let part := String.mk ((splitChar '_' seg.id.data).headD [])
      let c1 ← pyCharAt part 1
      let d ← pyCharToInt c1
      pure (d * 8 - 8)
    else
      pure (0 : Int)
  let c1 ← pyCharAt seg.id 1
  let d ← pyCharToInt c1
  let segNum : Int := d - 1
  let bar := strRepeatInt " " (segNum * 8) ++ "[" ++ strRepeat "=" 6 ++ "]"
  pure ["S" ++ toString (segNum + 1) ++ ": " ++ bar,
        "    " ++ seg.name, ""]

/-- One key-moment line (line 447): `moment['time']` right-justified to
width 8, then `moment['action']`; a missing dict key raises `KeyError`. -/
def momentLine (m : List (String × String)) : Except PyErr String := do
  let t ← pyGetKey m "time"
  let a ← pyGetKey m "action"
  pure ("  " ++ rjust 8 t ++ " : " ++ a)

/-- The key-events block of `TimelineVisualizer.generate`
(lines 444-447): section header, then the first three key moments. -/
def keyEventLines (seg : Segment) : Except PyErr (List String) := do
  let rest ← mapE momentLine (seg.key_moments.take 3)
  pure (("\n" ++ seg.id ++ " - " ++ seg.name ++ ":") :: rest)

/-- `TimelineVisualizer.generate` (lines 404-468): header, time ruler,
one bar block per segment, the key-events section, the sorted motion
vocabulary (`sorted` over the `set` union of all keyword lists), and the
footer, joined with newlines. Segments whose ids or key moments are
malformed make the underlying Python raise, modelled by the `.error`
branch. -/
def timelineGenerate (segments : List Segment) : Except PyErr String := do
  let eq80 := strRepeat "=" 80
  let dash80 := strRepeat "-" 80
  let bars ← mapE segBarLines segments
  let events ← mapE keyEventLines segments
  let keywordsLine := String.intercalate ", "
    (pySortedSet ((segments.map (fun s => s.motion_keywords)).flatten))
  let lines :=
    [eq80, "KAIZEN ELITE PORTFOLIO - MOTION TIMELINE", eq80, "",
     rulerLine, "       " ++ strRepeat "|" 7, ""]
    ++ bars.flatten
    ++ [dash80, "KEY EVENTS:", dash80]
    ++ events.flatten
    ++ ["", dash80, "MOTION VOCABULARY:", dash80, keywordsLine]
    ++ ["", eq80,
        "Total Duration: 56 seconds | Segments: " ++ toString segments.length
          ++ " | Resolution: 1920x1080",
        eq80]
  pure (String.intercalate "\n" lines)

/-- The inputs `TimelineVisualizer.generate` renders without raising:
the segment id has at least two characters with the second a decimal
digit (so `int(seg.id[1])` succeeds, and the `seg.id[0] == 'S'` branch
also succeeds, the first `'_'`-separated part then being at least two
characters long), and each of the first three key moments has both a
`time` and an `action` key. -/
def segRenderable (seg : Segment) : Bool :=
  (match seg.id.data with
   | _ :: c1 :: _ => c1.isDigit
   | _ => false) &&
  (seg.key_moments.take 3).all
    (fun m => (m.find? (fun q => q.1 == "time")).isSome &&
      (m.find? (fun q => q.1 == "action")).isSome)

/-- One entry of the report's `results` list
(`GenesisOrchestrator._generate_report`, lines 565-575). -/
structure ReportEntry where
  segment_id : String
  success : Bool
  output_path : Option String
  generation_time : ℚ
  error : Option String
  metadata : List (String × PyVal)

/-- The fixed 18-entry completeness scorecard (lines 576-595): a static
constant carried through unchanged. -/
def coverageMatrix : List (String × ℚ) :=
  [("dimension_1_input_parsing", 1), ("dimension_2_scene_composition", 1),
   ("dimension_3_design_tokens", 1), ("dimension_4_flow_decomposition", 1),
   ("dimension_5_timeline_architecture", 1),
   ("dimension_6_component_specification", 1),
   ("dimension_7_motion_tracks", 1),
   ("dimension_8_interaction_choreography", 1),
   ("dimension_9_state_machines", 1), ("dimension_10_transition_systems", 1),
   ("dimension_11_audio_design", 1), ("dimension_12_physics_parameters", 1),
   ("dimension_13_micro_interactions", 1),
   ("dimension_14_accessibility_motion", 1),
   ("dimension_15_platform_adaptation", 1),
   ("dimension_16_temporal_segmentation", 1),
   ("dimension_17_continuity_anchoring", 1),
   ("dimension_18_prompt_generation", 1)]

/-- The aggregate report (`_generate_report`, lines 553-596); the
timestamp and constant project string are omitted as pure metadata. -/
structure Report where
  total_segments : Nat
  successful : Nat
  failed : Nat
  total_generation_time : ℚ
  results : List ReportEntry
  coverage_matrix : List (String × ℚ)

/-- `GenesisOrchestrator._generate_report` (lines 553-596). -/
def generateReport (results : List GenerationResult) : Report :=
  { total_segments := results.length,
    successful := (results.filter (fun r => r.success)).length,
    failed := (results.filter (fun r => !r.success)).length,
    total_generation_time := (results.map (fun r => r.generation_time)).sum,
    results := results.map (fun r =>
      { segment_id := r.segment_id, success := r.success,
        output_path := r.output_path, generation_time := r.generation_time,
        error := r.error_message, metadata := r.metadata }),
    coverage_matrix := coverageMatrix }

/-- The externally observable side effects of one `GenesisOrchestrator.run`
invocation, in order. -/
inductive RunEvent where
  | timelineWritten
  | generated (id : String)
  | concatPlanned
  | reportWritten
  deriving DecidableEq, Repr

/-- The value `run` returns: the early preview dict
`{"status": "preview", "segments": n}` or the final report. -/
inductive RunResult where
  | preview (nsegs : Nat)
  | report (r : Report)

/-- Event trace plus returned value of one run. -/
structure RunOutput where
  events : List RunEvent
  result : RunResult

/-- Optional filtering of the loaded segments to a caller-supplied id
subset (`run`, lines 504-506). -/
def filteredSegments (loaded : List Segment) :
    Option (List String) → List Segment
  | some ids => loaded.filter (fun s => ids.contains s.id)
  | Option.none => loaded

/-- `GenesisOrchestrator.run` (lines 485-551), from the point where the
specifications are loaded: optional filtering to a caller-supplied id
subset, timeline rendering and write, the preview early return,
sequential generation, optional concatenation (only with at least two
successful paths), and the report write. `callOutcome` and `elapsed`
abstract each segment's dispatched call and wall-clock time. -/
def orchestratorRun (hash : String → String) (cfg : Config)
    (loaded : List Segment) (ctx : GlobalContext)
    (segmentIds : Option (List String)) (preview concatenate : Bool)
    (callOutcome : Segment → Except PyErr PyVal)
    (elapsed : Segment → ℚ) : Except PyErr RunOutput := do
  let segments := filteredSegments loaded segmentIds
  let _timeline ← timelineGenerate segments
  if preview then
    pure { events := [.timelineWritten], result := .preview segments.length }
  else
    let results := segments.map (fun s =>
      generateSegment hash cfg s ctx (callOutcome s) (elapsed s))
    let successfulPaths := (results.filter
      (fun r => r.success && r.output_path.isSome)).filterMap
        (fun r => r.output_path)
    let genEvents := results.map (fun r => RunEvent.generated r.segment_id)
    let concatEvents :=
      if concatenate && successfulPaths.length > 1 then [RunEvent.concatPlanned]
      else []
    pure
      { events := [RunEvent.timelineWritten] ++ genEvents ++ concatEvents
          ++ [RunEvent.reportWritten],
        result := .report (generateReport results) }

/-! ## Concrete fixtures -/

/-- The configuration with all dataclass defaults. -/
def defaultConfig : Config := {}

/-- A well-formed segment in the shape the pipeline expects
(`S<digit>_...` id, complete key moments). -/
def sampleSeg : Segment :=
  { id := "S1_boot", name := "Boot Sequence", duration_seconds := 8,
    prompt := "terminal boots", negative_prompt := "blur",
    entry_frame := [], exit_frame := [],
    key_moments := [[("time", "0:00"), ("action", "power on")]],
    audio_description := "hum", motion_keywords := ["glide", "pulse"],
    continuity_requirements := [] }

/-- A segment whose id is the empty string: type-correct input the
visualizer nevertheless crashes on (`seg.id[0]`). -/
def emptyIdSeg : Segment :=
  { id := "", name := "Broken", duration_seconds := 8,
    prompt := "p", negative_prompt := "",
    entry_frame := [], exit_frame := [], key_moments := [],
    audio_description := "", motion_keywords := [],
    continuity_requirements := [] }

/-- A configuration whose seed is set to `0`: present, but falsy in
Python. -/
def seedZeroConfig : Config := { seed := some 0 }

/-- A prompt-chain entry missing the required `segment_id` field. -/
def entryMissingId : PromptEntry :=
  { segment_name := some "Boot", duration_seconds := some 8,
    prompt := some "p" }

/-- A prompt-chain entry with all four required fields and no optional
fields. -/
def entryComplete : PromptEntry :=
  { segment_id := some "S2_reveal", segment_name := some "Reveal",
    duration_seconds := some 8, prompt := some "q" }

/-- A prompt-chain entry whose first missing required field (in the
evaluation order of `get_segments`) is `segment_name`. -/
def entryMissingName : PromptEntry :=
  { segment_id := some "S3_flow", duration_seconds := some 8,
    prompt := some "r" }

/-- A prompt-chain entry whose first missing required field is
`duration_seconds`; `prompt` is present, so the error must not name
it. -/
def entryMissingDuration : PromptEntry :=
  { segment_id := some "S4_code", segment_name := some "Code",
    prompt := some "s" }

/-- A prompt-chain entry whose only missing required field is
`prompt`. -/
def entryMissingPrompt : PromptEntry :=
  { segment_id := some "S5_data", segment_name := some "Data",
    duration_seconds := some 8 }

/-! ## Shared helper lemmas -/

theorem length_filter_add_length_filter_not (p : α → Bool) (l : List α) :
    (l.filter p).length + (l.filter (fun a => !p a)).length = l.length := by
  induction l with
  | nil => rfl
  | cons a as ih =>
    by_cases h : p a = true <;>
      simp [List.filter, h, Nat.add_assoc, Nat.add_left_comm, ih] <;> omega


/-- `mapE` succeeds when every element maps successfully. -/
theorem mapE_ok {α β : Type} (f : α → Except PyErr β) :
    ∀ l : List α, (∀ a ∈ l, ∃ b, f a = .ok b) →
      ∃ bs, mapE f l = .ok bs := by
  intro l
  induction l with
  | nil => exact fun _ => ⟨[], rfl⟩
  | cons a as ih =>
    intro hall
    obtain ⟨b, hb⟩ := hall a (List.mem_cons_self a as)
    obtain ⟨bs, hbs⟩ := ih (fun x hx => hall x (List.mem_cons_of_mem a hx))
    exact ⟨b :: bs, by simp [mapE, hb, hbs, Bind.bind, Except.bind,
      Pure.pure, Except.pure]⟩

/-- String indexing succeeds on an in-range position. -/
theorem pyCharAt_ok {s : String} {i : Nat} {c : Char}
    (h : s.data[i]? = some c) : pyCharAt s i = .ok c := by
  simp [pyCharAt, h]

/-- Dict subscripting succeeds on a present key. -/
theorem pyGetKey_ok {α : Type} {d : List (String × α)} {k : String}
    (h : (d.find? (fun q => q.1 == k)).isSome) :
    ∃ v, pyGetKey d k = .ok v := by
  obtain ⟨q, hq⟩ := Option.isSome_iff_exists.mp h
  exact ⟨q.2, by simp [pyGetKey, hq]⟩

/-- `str.split` always yields at least one group. -/
theorem splitChar_ne_nil (sep : Char) :
    ∀ l : List Char, splitChar sep l ≠ [] := by
  intro l
  cases l with
  | nil => simp [splitChar]
  | cons c cs =>
    simp only [splitChar]
    cases h : splitChar sep cs with
    | nil => simp
    | cons g gs =>
      by_cases hc : c = sep <;> simp [hc]

/-- A decimal digit is not an underscore. -/
theorem ne_underscore_of_isDigit {c : Char} (hd : c.isDigit) : c ≠ '_' :=
  fun heq => absurd (heq ▸ hd) (by decide)

/-- When the first two characters are not separators, the first group of
the split starts with them. -/
theorem splitChar_head_two {sep c0 c1 : Char} {rest : List Char}
    (h0 : c0 ≠ sep) (h1 : c1 ≠ sep) :
    ∃ t gs, splitChar sep (c0 :: c1 :: rest) = (c0 :: c1 :: t) :: gs := by
  obtain ⟨g, gs, hg⟩ : ∃ g gs, splitChar sep rest = g :: gs := by
    cases hr : splitChar sep rest with
    | nil => exact absurd hr (splitChar_ne_nil sep rest)
    | cons g gs => exact ⟨g, gs, rfl⟩
  refine ⟨g, gs, ?_⟩
  simp [splitChar, hg, if_neg h1, if_neg h0]

/-- The bar block renders without raising when the segment id has at
least two characters and the second is a decimal digit. -/
theorem segBarLines_ok {seg : Segment} {c0 c1 : Char} {rest : List Char}
    (hid : seg.id.data = c0 :: c1 :: rest) (hd : c1.isDigit) :
    ∃ ls, segBarLines seg = .ok ls := by
  have h0 : pyCharAt seg.id 0 = .ok c0 := pyCharAt_ok (by rw [hid]; simp)
  have h1 : pyCharAt seg.id 1 = .ok c1 := pyCharAt_ok (by rw [hid]; simp)
  have hci : pyCharToInt c1 = .ok ((c1.toNat : Int) - 48) := by
    simp [pyCharToInt, hd]
  by_cases hS : c0 = 'S'
  · obtain ⟨t, gs, hsp⟩ :=
      @splitChar_head_two '_' c0 c1 rest
        (hS ▸ (by decide : ('S' : Char) ≠ '_')) (ne_underscore_of_isDigit hd)
    have h1p : pyCharAt (String.mk (c0 :: c1 :: t)) 1 = .ok c1 :=
      pyCharAt_ok (by simp)
    simp only [segBarLines, h0, h1, hci, hid, hsp, if_pos hS,
      Bind.bind, Except.bind, List.headD, Pure.pure, Except.pure, h1p]
    exact ⟨_, rfl⟩
  · simp only [segBarLines, h0, h1, hci, if_neg hS,
      Bind.bind, Except.bind, Pure.pure, Except.pure]
    exact ⟨_, rfl⟩

/-- The key-events block renders without raising when the first three
key moments carry both required keys. -/
theorem keyEventLines_ok {seg : Segment}
    (h : ∀ m ∈ seg.key_moments.take 3,
      (m.find? (fun q => q.1 == "time")).isSome ∧
      (m.find? (fun q => q.1 == "action")).isSome) :
    ∃ ls, keyEventLines seg = .ok ls := by
  obtain ⟨rest, hrest⟩ := mapE_ok momentLine (seg.key_moments.take 3) (by
    intro m hm
    obtain ⟨t, ht⟩ := pyGetKey_ok (h m hm).1
    obtain ⟨a, ha⟩ := pyGetKey_ok (h m hm).2
    simp only [momentLine, ht, ha, Bind.bind, Except.bind, Pure.pure,
      Except.pure]
    exact ⟨_, rfl⟩)
  simp only [keyEventLines, hrest, Bind.bind, Except.bind,
    Pure.pure, Except.pure]
  exact ⟨_, rfl⟩

/-- The timeline renders without raising on a list of renderable
segments. -/
theorem timelineGenerate_isOk {segments : List Segment}
    (h : ∀ s ∈ segments, segRenderable s = true) :
    ∃ out, timelineGenerate segments = .ok out := by
  obtain ⟨bars, hbars⟩ := mapE_ok segBarLines segments (by
    intro s hs
    have hr := h s hs
    simp only [segRenderable, Bool.and_eq_true] at hr
    obtain ⟨hid, _⟩ := hr
    cases hdata : s.id.data with
    | nil => rw [hdata] at hid; simp at hid
    | cons c0 tl =>
      cases tl with
      | nil => rw [hdata] at hid; simp at hid
      | cons c1 rest =>
        rw [hdata] at hid
        exact segBarLines_ok hdata hid)
  obtain ⟨events, hevents⟩ := mapE_ok keyEventLines segments (by
    intro s hs
    have hr := h s hs
    simp only [segRenderable, Bool.and_eq_true, List.all_eq_true] at hr
    refine keyEventLines_ok (fun m hm => ?_)
    have := hr.2 m hm
    simp only [Bool.and_eq_true] at this
    exact this)
  simp only [timelineGenerate, hbars, hevents, Bind.bind,
    Except.bind, Pure.pure, Except.pure]
  exact ⟨_, rfl⟩

/-- `callApiAux` on a service whose every attempt fails with a non-2xx
status: all remaining attempts are made, with a sleep between
consecutive ones, and the final status error escapes. -/
theorem callApiAux_const_httpFail (msg : String) :
    ∀ r a, 1 ≤ r →
      callApiAux (fun _ => .httpStatusError msg) a r =
        { attemptsMade := r, sleeps := r - 1,
          outcome := .error (.httpStatusError msg) } := by
  intro r
  induction r with
  | zero => intro a h; exact absurd h (by norm_num)
  | succ k ih =>
    intro a _
    by_cases hk : k = 0
    · subst hk
      simp [callApiAux]
    · have h1 : 1 ≤ k := Nat.one_le_iff_ne_zero.mpr hk
      simp only [callApiAux, ih (a + 1) h1]
      simp only [if_neg hk]
      congr 1
      omega

/-! ## Claims -/

/-- C1 counterexample. The claim says boundary `i` of the emitted encode
command gets offset `(i+1) * D - T` with `D = 8`, `T = 0.2`, so boundary
1 of a 3-segment concatenation would be `15.8`. The code
(`_generate_ffmpeg_command`, line 375) computes `7.8 + 1 * 7.8 = 15.6`,
which differs from `15.8` by a full `0.2`. -/
theorem xfade_offsets_claim_cex :
    xfadeOffsets 3 = [39 / 5, 78 / 5] ∧ (78 / 5 : ℚ) ≠ (1 + 1) * 8 - 1 / 5 := by
  constructor
  · norm_num [xfadeOffsets, ffmpegFilterParts, List.range_succ]
  · norm_num

/-- C1, amended: for `N ≥ 2` ordered segment paths, the emitted encode
command assigns crossfade boundary `i` (`i = 0 .. N-2`) the offset
`(i+1) * (D - T)` with `D = 8`, `T = 0.2`, i.e. `7.8, 15.6, 23.4, ...`;
for `N = 2` there is exactly one boundary, with offset `7.8`. -/
theorem xfade_offsets_correct (n : Nat) (h : 2 ≤ n) :
    (∀ i : Nat, i < n - 1 →
      (xfadeOffsets n)[i]? = some (((i : ℚ) + 1) * (8 - 1 / 5))) ∧
    xfadeOffsets 2 = [39 / 5] := by
  constructor
  · intro i hi
    simp only [xfadeOffsets, ffmpegFilterParts, List.map_map,
      List.getElem?_map, List.getElem?_range hi]
    simp only [Option.map_some', Function.comp_apply]
    by_cases h0 : i = 0
    · subst h0
      norm_num
    · simp only [if_neg h0]
      congr 1
      have h39 : (8 : ℚ) - 1 / 5 = 39 / 5 := by norm_num
      rw [h39]
      ring
  · norm_num [xfadeOffsets, ffmpegFilterParts, List.range_succ]

/-- C1 witness: the amended statement at `N = 3`, with the two concrete
offsets `7.8` and `15.6`. -/
theorem xfade_offsets_correct_witness :
    (xfadeOffsets 3)[0]? = some (((0 : ℚ) + 1) * (8 - 1 / 5)) ∧
    (xfadeOffsets 3)[1]? = some (((1 : ℚ) + 1) * (8 - 1 / 5)) := by
  refine ⟨(xfade_offsets_correct 3 (by norm_num)).1 0 (by norm_num),
    (xfade_offsets_correct 3 (by norm_num)).1 1 (by norm_num)⟩

/-- C3, confirmed: `generate_segment` never lets an exception escape.
Within the embedding the enhanced-prompt construction (run before the
`try`, line 207) is a total function, and any exception raised by the
dispatched request/simulation is caught by the `try` (lines 209-237) and
returned as a failure `GenerationResult` carrying `str(e)` as
`error_message` and the elapsed time; `generateSegment` is total for
every outcome, so nothing propagates to the Orchestrator. -/
theorem generator_captures_exceptions (hash : String → String) (cfg : Config)
    (seg : Segment) (ctx : GlobalContext) (e : PyErr) (t : ℚ) :
    generateSegment hash cfg seg ctx (.error e) t =
      { segment_id := seg.id, success := false,
        output_path := Option.none, generation_time := t,
        error_message := some (strOfPyErr e), metadata := [] } := rfl

/-- C10, confirmed: the result returned by `generate_segment` carries the
input segment's id, in the success branch and in the failure branch
alike (lines 219-237). -/
theorem result_segment_id_matches (hash : String → String) (cfg : Config)
    (seg : Segment) (ctx : GlobalContext)
    (outcome : Except PyErr PyVal) (t : ℚ) :
    (generateSegment hash cfg seg ctx outcome t).segment_id = seg.id := by
  cases outcome <;> rfl

/-- C6, confirmed: every `GenerationResult` produced by
`generate_segment` has `output_path` present exactly when `success` is
true and `error_message` present exactly when `success` is false, and in
the aggregate report `successful + failed = total_segments` for every
result list. -/
theorem result_and_report_invariants :
    (∀ (hash : String → String) (cfg : Config) (seg : Segment)
      (ctx : GlobalContext) (outcome : Except PyErr PyVal) (t : ℚ),
      ((generateSegment hash cfg seg ctx outcome t).output_path.isSome =
        (generateSegment hash cfg seg ctx outcome t).success) ∧
      ((generateSegment hash cfg seg ctx outcome t).error_message.isSome =
        !(generateSegment hash cfg seg ctx outcome t).success)) ∧
    (∀ results : List GenerationResult,
      (generateReport results).successful + (generateReport results).failed =
        (generateReport results).total_segments) := by
  constructor
  · intro hash cfg seg ctx outcome t
    cases outcome <;> exact ⟨rfl, rfl⟩
  · intro results
    simpa [generateReport] using
      length_filter_add_length_filter_not (fun r => r.success) results

/-- C4 counterexample. The claim says a missing required field produces a
`MalformedSpecification` error identifying the offending entry index. The
code (`get_segments`, line 160) raises a bare `KeyError` naming only the
missing key: the error is identical whether the offending entry sits at
index 0 or at index 1, so it cannot identify the entry index. -/
theorem loader_required_fields_cex :
    getSegments [entryMissingId, entryComplete] =
      .error (.keyError "segment_id") ∧
    getSegments [entryComplete, entryMissingId] =
      .error (.keyError "segment_id") :=
  ⟨rfl, rfl⟩

/-- C4, amended: an entry missing one of the required fields makes the
Loader fail with a `KeyError` naming exactly the first missing required
field in the evaluation order `segment_id`, `segment_name`,
`duration_seconds`, `prompt` (one conjunct per presence/absence pattern,
each concluding an equality that pins the raised key), without
identifying the entry index; an entry with all four required fields and
no optional fields yields a Segment whose optional fields default to
empty strings/collections. -/
theorem loader_required_fields (e : PromptEntry) :
    (e.segment_id = Option.none →
      segmentOfEntry e = .error (.keyError "segment_id")) ∧
    (∀ i : String, e.segment_id = some i → e.segment_name = Option.none →
      segmentOfEntry e = .error (.keyError "segment_name")) ∧
    (∀ i nm : String, e.segment_id = some i → e.segment_name = some nm →
      e.duration_seconds = Option.none →
      segmentOfEntry e = .error (.keyError "duration_seconds")) ∧
    (∀ (i nm : String) (d : Int), e.segment_id = some i →
      e.segment_name = some nm → e.duration_seconds = some d →
      e.prompt = Option.none →
      segmentOfEntry e = .error (.keyError "prompt")) ∧
    (∀ (i nm : String) (d : Int) (p : String),
      e.segment_id = some i → e.segment_name = some nm →
      e.duration_seconds = some d → e.prompt = some p →
      e.negative_prompt = Option.none → e.entry_frame = Option.none →
      e.exit_frame = Option.none → e.key_moments = Option.none →
      e.audio_description = Option.none → e.motion_keywords = Option.none →
      e.continuity_requirements = Option.none →
      segmentOfEntry e = .ok
        { id := i, name := nm, duration_seconds := d, prompt := p,
          negative_prompt := "", entry_frame := [], exit_frame := [],
          key_moments := [], audio_description := "", motion_keywords := [],
          continuity_requirements := [] }) := by
  refine ⟨?_, ?_, ?_, ?_, ?_⟩
  · intro h1
    simp [segmentOfEntry, requireKey, h1, Bind.bind, Except.bind,
      Functor.map, Except.map]
  · intro i h1 h2
    simp [segmentOfEntry, requireKey, h1, h2, Bind.bind, Except.bind,
      Functor.map, Except.map]
  · intro i nm h1 h2 h3
    simp [segmentOfEntry, requireKey, h1, h2, h3, Bind.bind, Except.bind,
      Functor.map, Except.map]
  · intro i nm d h1 h2 h3 h4
    simp [segmentOfEntry, requireKey, h1, h2, h3, h4, Bind.bind,
      Except.bind, Functor.map, Except.map]
  · intro i nm d p h1 h2 h3 h4 h5 h6 h7 h8 h9 h10 h11
    simp [segmentOfEntry, requireKey, h1, h2, h3, h4, h5, h6, h7, h8,
      h9, h10, h11, Bind.bind, Except.bind, Functor.map, Except.map,
      Pure.pure, Except.pure]

/-- C4 witness: the amended statement at concrete entries exercising all
four first-missing-field patterns — `segment_id` missing, only
`segment_name` missing, `duration_seconds` missing while `prompt` is
present, only `prompt` missing — and the complete entry with its
defaulted optional fields. -/
theorem loader_required_fields_witness :
    segmentOfEntry entryMissingId = .error (.keyError "segment_id") ∧
    segmentOfEntry entryMissingName = .error (.keyError "segment_name") ∧
    segmentOfEntry entryMissingDuration =
      .error (.keyError "duration_seconds") ∧
    segmentOfEntry entryMissingPrompt = .error (.keyError "prompt") ∧
    segmentOfEntry entryComplete = .ok
      { id := "S2_reveal", name := "Reveal", duration_seconds := 8,
        prompt := "q", negative_prompt := "", entry_frame := [],
        exit_frame := [], key_moments := [], audio_description := "",
        motion_keywords := [], continuity_requirements := [] } :=
  ⟨(loader_required_fields entryMissingId).1 rfl,
   (loader_required_fields entryMissingName).2.1 "S3_flow" rfl rfl,
   (loader_required_fields entryMissingDuration).2.2.1 "S4_code" "Code"
     rfl rfl rfl,
   (loader_required_fields entryMissingPrompt).2.2.2.1 "S5_data" "Data" 8
     rfl rfl rfl rfl,
   (loader_required_fields entryComplete).2.2.2.2 "S2_reveal" "Reveal" 8 "q"
     rfl rfl rfl rfl rfl rfl rfl rfl rfl rfl rfl⟩

/-- C5 counterexample. The claim says every request-level failure
(non-2xx response OR transport error) on an attempt before the last is
retried after a sleep, giving up to `max_retries` attempts. The `except`
clause at line 275 only catches `httpx.HTTPStatusError`, so a transport
error on the first of three attempts escapes at once: one attempt is
made and there is no sleep, where the claim predicts three attempts with
two sleeps. -/
theorem retry_policy_cex :
    (callApi (fun _ => .transportError "connection reset") 3).attemptsMade
      = 1 ∧
    (callApi (fun _ => .transportError "connection reset") 3).sleeps = 0 :=
  ⟨rfl, rfl⟩

/-- C5, amended: only non-2xx (`HTTPStatusError`) failures are retried:
with every attempt failing that way, exactly `max_retries ≥ 1` attempts
are made with a `retry_delay` sleep between consecutive attempts and the
last failure escapes `_call_api`; a success on the first attempt
short-circuits immediately; and the escaped exception is then caught by
`generate_segment`, which returns a failure result instead of raising.
Transport errors abort the retry loop at once (see the counterexample). -/
theorem retry_policy_behavior (n : Nat) (h : 1 ≤ n) (msg : String) :
    callApi (fun _ => .httpStatusError msg) n =
      { attemptsMade := n, sleeps := n - 1,
        outcome := .error (.httpStatusError msg) } ∧
    (∀ (f : Nat → AttemptOutcome) (resp : PyVal), f 0 = .ok resp →
      callApi f n = { attemptsMade := 1, sleeps := 0, outcome := .ok resp }) ∧
    (∀ (hash : String → String) (cfg : Config) (seg : Segment)
      (ctx : GlobalContext) (e : PyErr) (t : ℚ),
      (generateSegment hash cfg seg ctx (.error e) t).success = false ∧
      (generateSegment hash cfg seg ctx (.error e) t).error_message =
        some (strOfPyErr e)) := by
  refine ⟨callApiAux_const_httpFail msg n 0 h, ?_, ?_⟩
  · intro f resp hf
    obtain ⟨m, rfl⟩ := Nat.exists_eq_add_of_le h
    rw [Nat.add_comm]
    simp [callApi, callApiAux, hf]
  · intro hash cfg seg ctx e t
    exact ⟨rfl, rfl⟩

/-- C5 witness: the amended statement at `max_retries = 3` and a
concrete failing status. -/
theorem retry_policy_behavior_witness :
    callApi (fun _ => .httpStatusError "503 Service Unavailable") 3 =
      { attemptsMade := 3, sleeps := 2,
        outcome := .error (.httpStatusError "503 Service Unavailable") } :=
  (retry_policy_behavior 3 (by norm_num) "503 Service Unavailable").1

/-- C7, confirmed: enhanced-prompt construction is a pure function (in
the embedding, determinism is immediate), equal to the spec-worded
rendering `specEnhancedPrompt` — the six context fields in the fixed
order `style, color_palette, device, lighting, camera, quality`, each on
its own line with missing keys rendered as empty strings — and its
output is that block followed by the segment's raw prompt. -/
theorem enhanced_prompt_deterministic_spec (seg : Segment)
    (ctx : GlobalContext) :
    buildEnhancedPrompt seg ctx = specEnhancedPrompt seg ctx ∧
    ∃ block, buildEnhancedPrompt seg ctx = block ++ seg.prompt := by
  constructor
  · apply String.ext
    simp [buildEnhancedPrompt, specEnhancedPrompt, specContextFields,
      String.join, String.data_append]
  · exact ⟨_, rfl⟩

/-- C8 counterexample. The claim says the `seed` key is present iff the
configured seed is set. Line 263 guards on Python truthiness
(`if self.config.seed:`), so a configured seed of `0` — set, but falsy —
is omitted from the payload: with `seed = 0` configured (set), the
payload carries no `seed` key. -/
theorem payload_seed_cex :
    seedZeroConfig.seed.isSome = true ∧
    ((buildPayload seedZeroConfig sampleSeg "x").map Prod.fst).contains
      "seed" = false :=
  ⟨rfl, rfl⟩

/-- C8, amended: the payload always contains exactly the keys `prompt`,
`negative_prompt`, `duration`, `resolution`, `fps`, `guidance_scale`,
`num_inference_steps`, in order, plus `seed` exactly when the configured
seed is truthy (set and nonzero); a seed that is unset OR set to `0` is
omitted. -/
theorem payload_key_set (cfg : Config) (seg : Segment) (p : String) :
    (buildPayload cfg seg p).map Prod.fst =
      ["prompt", "negative_prompt", "duration", "resolution", "fps",
       "guidance_scale", "num_inference_steps"] ++
      (if pyTruthyIntOpt cfg.seed then ["seed"] else []) := by
  unfold buildPayload
  cases h : pyTruthyIntOpt cfg.seed <;> simp [h]

/-- C2 counterexample. The claim says the Timeline Visualizer's render
is total for any segment id string and any key_moments contents. A
segment whose id is the empty string makes `generate` evaluate
`seg.id[0]` (line 428) and raise `IndexError`, so the render fails on a
type-correct input. -/
theorem timeline_render_total_cex :
    timelineGenerate [emptyIdSeg] =
      .error (.indexError "string index out of range") := rfl

/-- C2, amended: the render is a pure, deterministic function that
returns a text result for every segment list whose segments are
renderable — id at least two characters with the second a decimal digit,
and each of the first three key moments carrying both `time` and
`action` keys; outside that domain it can raise (e.g. `IndexError` on an
empty id, see the counterexample). -/
theorem timeline_render_total_on_renderable (segments : List Segment)
    (h : ∀ s ∈ segments, segRenderable s = true) :
    ∃ out, timelineGenerate segments = .ok out :=
  timelineGenerate_isOk h

/-- C2 witness: the amended statement at the concrete renderable
segment `sampleSeg`. -/
theorem timeline_render_total_on_renderable_witness :
    (∀ s ∈ [sampleSeg], segRenderable s = true) ∧
    ∃ out, timelineGenerate [sampleSeg] = .ok out :=
  ⟨by decide, timeline_render_total_on_renderable [sampleSeg] (by decide)⟩

/-- C9 counterexample. The claim quantifies over every non-empty Segment
list, but `run` renders the timeline (line 510) before the preview
check, and that render can raise: with a segment whose id is empty,
`run` with `preview=true` propagates `IndexError` — no timeline file is
written and no preview-status result is returned. -/
theorem preview_claim_cex :
    orchestratorRun (fun _ => "") defaultConfig [emptyIdSeg] []
      Option.none true false (fun _ => .ok .none) (fun _ => 0) =
      .error (.indexError "string index out of range") := rfl

/-- C9, amended: for every non-empty (filtered) Segment list on which
the timeline render succeeds, running the pipeline with `preview=true`
writes the timeline file and returns the preview-status result before
any Generation Result is produced: the event trace is exactly the
timeline write — no segment generation, no concatenation, and no report
in this branch. -/
theorem preview_short_circuits (hash : String → String) (cfg : Config)
    (loaded : List Segment) (ctx : GlobalContext)
    (ids : Option (List String)) (concatenate : Bool)
    (callOutcome : Segment → Except PyErr PyVal)
    (elapsed : Segment → ℚ) (tl : String)
    (hok : timelineGenerate (filteredSegments loaded ids) = .ok tl)
    (hne : filteredSegments loaded ids ≠ []) :
    orchestratorRun hash cfg loaded ctx ids true concatenate
      callOutcome elapsed =
      .ok { events := [.timelineWritten],
            result := .preview (filteredSegments loaded ids).length } := by
  simp only [orchestratorRun, hok, Bind.bind, Except.bind, Pure.pure,
    Except.pure, if_pos]

/-- C9 witness: the amended statement on the concrete one-segment list
`[sampleSeg]`, whose timeline render succeeds. -/
theorem preview_short_circuits_witness :
    orchestratorRun (fun _ => "") defaultConfig [sampleSeg] []
      Option.none true false (fun _ => .ok .none) (fun _ => 0) =
      .ok { events := [.timelineWritten], result := .preview 1 } := by
  obtain ⟨tl, htl⟩ :=
    @timelineGenerate_isOk [sampleSeg] (by decide)
  exact preview_short_circuits (fun _ => "") defaultConfig [sampleSeg] []
    Option.none false (fun _ => .ok .none) (fun _ => 0) tl htl
    (List.cons_ne_nil _ _)
